import Mathlib

/-!
Verification of the luminance-rs core slice: the WebGL2 state cache
(bind elision), the WebGL2 buffer lifecycle (`new_buffer`, `from_slice`,
`destroy_buffer`, `len`, `at`, the commented-out `write_whole`), and the
tessellation gate / render invocation.

Shallow embedding conventions:
* Native GL handles (`WebGlBuffer`) are `Nat`.
* The shared `Rc<RefCell<WebGL2State>>` cell is modelled by explicit state
  passing; the `Rc` pointer identity carried by each `Buffer` is a `Nat`
  tag (`state` field).
* Every native call issued to the underlying context is appended to an
  observable trace `native_calls`, so that "issues a native bind call",
  "issues no draw call", etc. are statements about that trace.
* Backend allocation (`ctx.create_buffer()`, which returns an
  `Option<WebGlBuffer>`) and buffer mapping (`gl::MapBuffer`, which may
  return a null pointer) are nondeterministic in the driver; their
  outcomes are passed in as explicit parameters (`alloc`, `mapResult`).
-/

namespace Luminance

/-- A native call issued against the underlying graphics context.
`bindBuffer target handle` covers both binds (`some h`) and unbinds
(`none`). -/
inductive NativeCall where
  | bindBuffer (target : Nat) (handle : Option Nat)
  | createBuffer
  | bufferDataAlloc (bytes : Nat)
  | bufferDataUpload (bytes : Nat)
  | mapBuffer
  | unmapBuffer
  | copyToBuffer (bytes : Nat)
  | deleteBuffer (handle : Nat)
  | draw (start_index vert_nb inst_nb : Nat)
deriving DecidableEq, Repr

/-- Is this native call a bind call (`ctx.bind_buffer`)? -/
def NativeCall.isBind : NativeCall → Bool
  | .bindBuffer _ _ => true
  | _ => false

/-- The `WebGl2RenderingContext::ARRAY_BUFFER` binding target. -/
def ARRAY_BUFFER : Nat := 34962

/-- Modelled from the spec: the Context State Cache of `webgl2/state.rs`
(the file itself is not part of the analysed sources; only its callers
are). `bound` mirrors, per binding target, the last-known-bound native
handle; `native_calls` is the observable trace of native calls issued. -/
structure WebGL2State where
  bound : Nat → Option Nat
  native_calls : List NativeCall

/-- Record one native call in the trace. -/
def WebGL2State.issue (st : WebGL2State) (c : NativeCall) : WebGL2State :=
  { st with native_calls := st.native_calls ++ [c] }

/-- Update the cache entry for one binding target. -/
def WebGL2State.setBound (st : WebGL2State) (target : Nat) (handle : Option Nat) :
    WebGL2State :=
  { st with bound := fun u => if u = target then handle else st.bound u }

/-- Bind mode: elide-if-unchanged (`Cached`) versus always-issue
(`Forced`). -/
inductive Bind where
  | Cached
  | Forced
deriving DecidableEq, Repr

/-- Modelled from the spec: `bind(target, handle, mode)` of the Context
State Cache (§4.1). `Cached`: if the cache already records `handle` as
bound to `target`, no native call is issued; otherwise the native bind is
issued and the cache entry updated. `Forced`: always issues the native
bind and updates the cache entry. -/
def bind_buffer_target (st : WebGL2State) (target : Nat) (handle : Option Nat)
    (mode : Bind) : WebGL2State :=
  match mode with
  | .Cached =>
      if st.bound target = handle then st
      else (st.issue (.bindBuffer target handle)).setBound target handle
  | .Forced => (st.issue (.bindBuffer target handle)).setBound target handle

/-- The `bind_array_buffer` instance of the bind contract used by the
buffer code: binding target fixed to `ARRAY_BUFFER`. -/
def bind_array_buffer (st : WebGL2State) (handle : Option Nat) (mode : Bind) :
    WebGL2State :=
  bind_buffer_target st ARRAY_BUFFER handle mode

/-- Modelled from the spec: `unbind(handle)` of the Context State Cache
(§4.1): if the cache's current entry for the relevant target equals
`handle`, clears it to none and issues the native unbind; otherwise a
no-op. -/
def unbind_buffer (st : WebGL2State) (handle : Nat) : WebGL2State :=
  if st.bound ARRAY_BUFFER = some handle then
    (st.issue (.bindBuffer ARRAY_BUFFER none)).setBound ARRAY_BUFFER none
  else st

/-- Number of native bind calls in a trace. -/
def bindCount (calls : List NativeCall) : Nat :=
  (calls.filter NativeCall.isBind).length

/-- Iterate `n` successive `bind(target, h, Cached)` calls. -/
def bindCachedSeq (target h : Nat) : Nat → WebGL2State → WebGL2State
  | 0, st => st
  | n + 1, st => bindCachedSeq target h n (bind_buffer_target st target (some h) .Cached)

lemma bindCount_append (xs ys : List NativeCall) :
    bindCount (xs ++ ys) = bindCount xs + bindCount ys := by
  simp [bindCount, List.filter_append]

lemma bind_cached_hit {st : WebGL2State} {target h : Nat}
    (hb : st.bound target = some h) :
    bind_buffer_target st target (some h) .Cached = st := by
  simp [bind_buffer_target, hb]

lemma bind_cached_miss {st : WebGL2State} {target h : Nat}
    (hb : st.bound target ≠ some h) :
    bind_buffer_target st target (some h) .Cached =
      (st.issue (.bindBuffer target (some h))).setBound target (some h) := by
  simp [bind_buffer_target, hb]

lemma bind_cached_miss_bound {st : WebGL2State} {target h : Nat}
    (hb : st.bound target ≠ some h) :
    (bind_buffer_target st target (some h) .Cached).bound target = some h := by
  simp [bind_cached_miss hb, WebGL2State.issue, WebGL2State.setBound]

lemma bindCachedSeq_hit {target h : Nat} (n : Nat) :
    ∀ {st : WebGL2State}, st.bound target = some h →
      bindCachedSeq target h n st = st := by
  induction n with
  | zero => intro st _; rfl
  | succ m ih =>
      intro st hb
      simp only [bindCachedSeq, bind_cached_hit hb]
      exact ih hb

/-- C1: `bind(t, h, Cached)` issues a native bind call iff the cache entry
for `t` does not already record `h`; a sequence of `n ≥ 1` such calls with
the same `h` (starting from a state not recording `h`) issues exactly one
native bind call; and for `h1 ≠ h2`, `bind(t, h1, Cached)` then
`bind(t, h2, Cached)` issues exactly 2 native bind calls. -/
theorem bind_cached_native_call_elision (st : WebGL2State) (t h : Nat) :
    ((bind_buffer_target st t (some h) .Cached).native_calls =
        st.native_calls ++ [.bindBuffer t (some h)] ↔ st.bound t ≠ some h) ∧
    ((bind_buffer_target st t (some h) .Cached).native_calls = st.native_calls ↔
        st.bound t = some h) ∧
    (∀ n, 1 ≤ n → st.bound t ≠ some h →
      bindCount (bindCachedSeq t h n st).native_calls =
        bindCount st.native_calls + 1) ∧
    (∀ h2, h2 ≠ h → st.bound t ≠ some h →
      bindCount (bind_buffer_target (bind_buffer_target st t (some h) .Cached)
          t (some h2) .Cached).native_calls =
        bindCount st.native_calls + 2) := by
  refine ⟨?_, ?_, ?_, ?_⟩
  · constructor
    · intro hcalls hb
      rw [bind_cached_hit hb] at hcalls
      have hnil : ([NativeCall.bindBuffer t (some h)] : List NativeCall) = [] :=
        List.append_right_eq_self.mp hcalls.symm
      simp at hnil
    · intro hb
      simp [bind_cached_miss hb, WebGL2State.issue, WebGL2State.setBound]
  · constructor
    · intro hcalls
      by_contra hb
      rw [bind_cached_miss hb] at hcalls
      simp [WebGL2State.issue, WebGL2State.setBound] at hcalls
    · intro hb
      rw [bind_cached_hit hb]
  · rintro (_ | m) hn hb
    · omega
    · simp only [bindCachedSeq]
      rw [bindCachedSeq_hit m (bind_cached_miss_bound hb)]
      simp [bind_cached_miss hb, WebGL2State.issue, WebGL2State.setBound,
        bindCount_append, bindCount, NativeCall.isBind]
  · intro h2 hne hb
    have hb2 : (bind_buffer_target st t (some h) .Cached).bound t ≠ some h2 := by
      rw [bind_cached_miss_bound hb]
      simp [hne.symm]
    rw [bind_cached_miss hb2, bind_cached_miss hb]
    simp [WebGL2State.issue, WebGL2State.setBound, bindCount_append, bindCount,
      NativeCall.isBind]

/-- Witness for C1 at a concrete state and handles. -/
theorem bind_cached_native_call_elision_witness :
    (bind_buffer_target ⟨fun _ => none, []⟩ 7 (some 3) .Cached).native_calls =
        [.bindBuffer 7 (some 3)] ∧
    bindCount (bindCachedSeq 7 3 5 ⟨fun _ => none, []⟩).native_calls = 1 ∧
    bindCount (bind_buffer_target
        (bind_buffer_target ⟨fun _ => none, []⟩ 7 (some 3) .Cached)
        7 (some 4) .Cached).native_calls = 2 := by
  have h := bind_cached_native_call_elision ⟨fun _ => none, []⟩ 7 3
  refine ⟨h.1.mpr (by simp), ?_, ?_⟩
  · have := h.2.2.1 5 (by omega) (by simp)
    simpa [bindCount] using this
  · have := h.2.2.2 4 (by omega) (by simp)
    simpa [bindCount] using this

/-! ## Buffer lifecycle (src/luminance-webgl/src/webgl2/buffer.rs) -/

/-- The `luminance::buffer::BufferError` variants used by the WebGL2 buffer
code (active and commented-out paths). -/
inductive BufferError where
  | CannotCreate
  | TooFewValues (provided_len buffer_len : Nat)
  | TooManyValues (provided_len buffer_len : Nat)
  | MapFailed
  | Overflow (index buffer_len : Nat)
deriving DecidableEq, Repr

/-- The WebGL buffer representation: native handle `buf` (a
`WebGlBuffer`), byte size `bytes`, logical element count `len`, and the
`Rc<RefCell<WebGL2State>>` back-reference, modelled by the pointer
identity tag `state`. -/
structure Buffer where
  buf : Nat
  bytes : Nat
  len : Nat
  state : Nat
deriving DecidableEq, Repr

/-- Clone of `Buffer` (its derived Clone impl): clones each field; cloning the
`WebGlBuffer` and the `Rc` clones references, so the copy designates the
same native object and the same shared state cell. -/
def Buffer.clone (b : Buffer) : Buffer :=
  { buf := b.buf, bytes := b.bytes, len := b.len, state := b.state }

/-- Modelled from the spec: `state.create_buffer()` asks the backend for
a fresh native buffer object; the backend may fail (`alloc = none`). One
native call is issued either way. -/
def create_buffer (st : WebGL2State) (alloc : Option Nat) :
    Option Nat × WebGL2State :=
  (alloc, st.issue .createBuffer)

/-- Operation `new_buffer(len)`: computes `bytes = size_of::<T>() * len`, asks the
backend for a native object (error `CannotCreate` when it fails), force-
binds the new handle to the array-buffer target, then issues the
storage-allocation call (`buffer_data_with_i32`, no data). `sizeOfT` is
`mem::size_of::<T>()`; `stateRef` the backend's shared-state tag. -/
def new_buffer (sizeOfT stateRef : Nat) (alloc : Option Nat) (len : Nat)
    (st : WebGL2State) : Except BufferError Buffer × WebGL2State :=
  let bytes := sizeOfT * len
  match create_buffer st alloc with
  | (none, st1) => (.error .CannotCreate, st1)
  | (some buf, st1) =>
      let st2 := bind_array_buffer st1 (some buf) .Forced
      let st3 := st2.issue (.bufferDataAlloc bytes)
      (.ok { buf := buf, bytes := bytes, len := len, state := stateRef }, st3)

/-- Operation `from_slice(slice)`: like `new_buffer` but with
`len = slice.len()`, and the storage call uploads the slice's bytes
(`buffer_data_with_u8_array`). -/
def from_slice {α : Type} (sizeOfT stateRef : Nat) (alloc : Option Nat)
    (slice : List α) (st : WebGL2State) :
    Except BufferError Buffer × WebGL2State :=
  let len := slice.length
  let bytes := sizeOfT * len
  match create_buffer st alloc with
  | (none, st1) => (.error .CannotCreate, st1)
  | (some buf, st1) =>
      let st2 := bind_array_buffer st1 (some buf) .Forced
      let st3 := st2.issue (.bufferDataUpload bytes)
      (.ok { buf := buf, bytes := bytes, len := len, state := stateRef }, st3)

/-- Operation `destroy_buffer`: unbinds the buffer through the shared state, then
deletes the native handle. -/
def destroy_buffer (b : Buffer) (st : WebGL2State) : WebGL2State :=
  (unbind_buffer st b.buf).issue (.deleteBuffer b.buf)

/-- Operation `at(buffer, i)`: out-of-range indices yield `none`; otherwise the
code binds the buffer (`Cached`), maps it (`gl::MapBuffer`), reads
`*ptr.add(i)` with no null check, unmaps, and returns `Some`.
`mapResult` is the mapping outcome: `some f` a valid mapping with
contents `f`, `none` the null pointer. The returned element is
`mapResult.map (f => f i)`: reading through a null mapping has no defined
value, which the embedding records as the inner `none` — the source
performs that read unguarded. -/
def Buffer.at {α : Type} (b : Buffer) (mapResult : Option (Nat → α))
    (i : Nat) (st : WebGL2State) : Option (Option α) × WebGL2State :=
  if b.len ≤ i then (none, st)
  else
    let st1 := bind_array_buffer st (some b.buf) .Cached
    let st2 := st1.issue .mapBuffer
    let x := mapResult.map fun f => f i
    let st3 := st2.issue .unmapBuffer
    (some x, st3)

/-- Operation `write_whole(buffer, values)` (present in the source as commented-out
design intent): compares `in_bytes = values.len() * size_of::<T>()` with
the buffer's byte capacity; fewer bytes fail with `TooFewValues`, more
with `TooManyValues`, and only on equality does it bind (`Cached`), map,
`copy_nonoverlapping` the bytes, and unmap. -/
def write_whole {α : Type} (sizeOfT : Nat) (b : Buffer) (values : List α)
    (st : WebGL2State) : Except BufferError Unit × WebGL2State :=
  let len := values.length
  let in_bytes := len * sizeOfT
  if in_bytes < b.bytes then
    (.error (.TooFewValues len b.len), st)
  else if b.bytes < in_bytes then
    (.error (.TooManyValues len b.len), st)
  else
    let st1 := bind_array_buffer st (some b.buf) .Cached
    let st2 := (st1.issue .mapBuffer).issue (.copyToBuffer in_bytes)
    let st3 := st2.issue .unmapBuffer
    (.ok (), st3)

/-! ## Tessellation render invocation -/

/-- Modelled from the spec: `luminance::tess::TessError` (the module is
not under the analysed sources; §7 lists builder validation failures and
the out-of-range render view among its causes). -/
inductive TessError where
  | outOfRangeView (start_index vert_nb tess_vert_nb : Nat)
  | validationError
deriving DecidableEq, Repr

/-- The immutable, GPU-resident tessellation as seen by render: its
vertex and instance counts. -/
structure Tess where
  vert_nb : Nat
  inst_nb : Nat
deriving DecidableEq, Repr

/-- Modelled from the spec: the backend-level `Tess::render` operation
(declared in src/luminance/src/backend/tess.rs; its implementation is
not under the analysed sources). A view with `start_index + vert_nb`
exceeding the tessellation's vertex count fails with `TessError` and
issues no draw call; otherwise exactly one draw submission is issued. -/
def Tess.render (t : Tess) (start_index vert_nb inst_nb : Nat)
    (st : WebGL2State) : Except TessError Unit × WebGL2State :=
  if t.vert_nb < start_index + vert_nb then
    (.error (.outOfRangeView start_index vert_nb t.vert_nb), st)
  else
    (.ok (), st.issue (.draw start_index vert_nb inst_nb))

/-- A tessellation view: the borrowed tessellation plus the draw
parameters `start_index`, `vert_nb`, `inst_nb`. -/
structure TessView where
  tess : Tess
  start_index : Nat
  vert_nb : Nat
  inst_nb : Nat
deriving DecidableEq, Repr

/-- The gate entry point `TessGate::render` (src/luminance/src/tess_gate.rs): forwards the
view's fields to the backend render operation. Its return type is unit,
so whatever `Result` the backend-level render produces is dropped at the
gate; only the state effect remains. -/
def TessGate.render (view : TessView) (st : WebGL2State) :
    Unit × WebGL2State :=
  ((), (Tess.render view.tess view.start_index view.vert_nb view.inst_nb st).2)

/-- C2 counterexample: for the concrete tessellation with 3 vertices and
the view `start_index = 2`, `vert_nb = 2`, the backend-level render does
fail with a `TessError` and issues no draw call, but the `TessGate`
render entry point — the `render(view)` the pipeline caller invokes —
returns the bare unit with the state unchanged: its result carries no
error value at all, so the failure is not observable to that caller. -/
theorem tess_gate_render_error_unobservable_cex :
    (Tess.render ⟨3, 1⟩ 2 2 1 ⟨fun _ => none, []⟩).1 =
      Except.error (TessError.outOfRangeView 2 2 3) ∧
    TessGate.render ⟨⟨3, 1⟩, 2, 2, 1⟩ ⟨fun _ => none, []⟩ =
      ((), ⟨fun _ => none, []⟩) := by
  exact ⟨rfl, rfl⟩

/-- C2 (amended): for every view with `start_index + vert_nb` exceeding
the tessellation's vertex count, the backend-level render fails with a
`TessError` and issues no draw call (the native-call trace is unchanged);
the `TessGate::render` entry point forwards to it but returns unit,
discarding the error. -/
theorem tess_render_out_of_range (t : Tess) (si vn inn : Nat)
    (st : WebGL2State) (h : t.vert_nb < si + vn) :
    Tess.render t si vn inn st =
      (.error (.outOfRangeView si vn t.vert_nb), st) ∧
    TessGate.render ⟨t, si, vn, inn⟩ st = ((), st) := by
  constructor <;> simp [Tess.render, TessGate.render, h]

/-- Witness for the amended C2 at a concrete tessellation and view. -/
theorem tess_render_out_of_range_witness :
    Tess.render ⟨3, 1⟩ 2 2 1 ⟨fun _ => none, []⟩ =
      (.error (.outOfRangeView 2 2 3), ⟨fun _ => none, []⟩) ∧
    TessGate.render ⟨⟨3, 1⟩, 2, 2, 1⟩ ⟨fun _ => none, []⟩ =
      ((), ⟨fun _ => none, []⟩) :=
  tess_render_out_of_range ⟨3, 1⟩ 2 2 1 ⟨fun _ => none, []⟩ (by decide)

/-! ## Buffer theorems -/

/-- C3: `at(buffer, i)` returns the absent result exactly when
`i ≥ len`; for an in-range index (with a valid mapping `f`) it binds the
buffer with mode `Cached`, maps it, copies the one element at index `i`,
unmaps, and returns that element. -/
theorem buffer_at_contract {α : Type} (b : Buffer) (f : Nat → α) (i : Nat)
    (st : WebGL2State) :
    ((Buffer.at b (some f) i st).1 = none ↔ b.len ≤ i) ∧
    (i < b.len →
      Buffer.at b (some f) i st =
        (some (some (f i)),
          ((bind_array_buffer st (some b.buf) .Cached).issue
              .mapBuffer).issue .unmapBuffer)) := by
  constructor
  · by_cases hle : b.len ≤ i <;> simp [Buffer.at, hle]
  · intro hlt
    have hnle : ¬ b.len ≤ i := by omega
    simp [Buffer.at, hnle]

/-- Witness for C3: a 2-element buffer, in-range index 1 and
out-of-range index 5. -/
theorem buffer_at_contract_witness :
    (Buffer.at ⟨1, 8, 2, 0⟩ (some fun n => n + 10) 5 ⟨fun _ => none, []⟩).1 =
      none ∧
    Buffer.at ⟨1, 8, 2, 0⟩ (some fun n => n + 10) 1 ⟨fun _ => none, []⟩ =
      (some (some 11),
        ((bind_array_buffer ⟨fun _ => none, []⟩ (some 1) .Cached).issue
            .mapBuffer).issue .unmapBuffer) :=
  ⟨(buffer_at_contract ⟨1, 8, 2, 0⟩ (fun n => n + 10) 5
      ⟨fun _ => none, []⟩).1.mpr (by decide),
   (buffer_at_contract ⟨1, 8, 2, 0⟩ (fun n => n + 10) 1
      ⟨fun _ => none, []⟩).2 (by decide)⟩

/-- C4: a successful `new_buffer(len)` yields a buffer whose logical
length is `len` and whose byte size is `len * size_of::<T>()`; a
successful `from_slice(data)` yields logical length `data.len()` and
byte size `data.len() * size_of::<T>()`. -/
theorem buffer_creation_len_bytes {α : Type} (sizeOfT stateRef : Nat)
    (alloc : Option Nat) (len : Nat) (data : List α)
    (st st1 st2 : WebGL2State) (b c : Buffer) :
    (new_buffer sizeOfT stateRef alloc len st = (.ok b, st1) →
      b.len = len ∧ b.bytes = len * sizeOfT) ∧
    (from_slice sizeOfT stateRef alloc data st = (.ok c, st2) →
      c.len = data.length ∧ c.bytes = data.length * sizeOfT) := by
  cases alloc with
  | none =>
      constructor <;> · intro hcontra; simp [new_buffer, from_slice, create_buffer] at hcontra
  | some hdl =>
      constructor
      · intro hok
        simp only [new_buffer, create_buffer, Prod.mk.injEq, Except.ok.injEq] at hok
        rw [← hok.1]
        exact ⟨rfl, Nat.mul_comm sizeOfT len⟩
      · intro hok
        simp only [from_slice, create_buffer, Prod.mk.injEq, Except.ok.injEq] at hok
        rw [← hok.1]
        exact ⟨rfl, Nat.mul_comm sizeOfT data.length⟩

/-- Witness for C4 at concrete creations. -/
theorem buffer_creation_len_bytes_witness :
    ((⟨7, 12, 3, 0⟩ : Buffer).len = 3 ∧ (⟨7, 12, 3, 0⟩ : Buffer).bytes = 3 * 4) ∧
    ((⟨7, 8, 2, 0⟩ : Buffer).len = 2 ∧ (⟨7, 8, 2, 0⟩ : Buffer).bytes = 2 * 4) :=
  ⟨(buffer_creation_len_bytes 4 0 (some 7) 3 ([5, 6] : List Nat)
        ⟨fun _ => none, []⟩
        (new_buffer 4 0 (some 7) 3 ⟨fun _ => none, []⟩).2
        (from_slice 4 0 (some 7) ([5, 6] : List Nat) ⟨fun _ => none, []⟩).2
        ⟨7, 12, 3, 0⟩ ⟨7, 8, 2, 0⟩).1 rfl,
   (buffer_creation_len_bytes 4 0 (some 7) 3 ([5, 6] : List Nat)
        ⟨fun _ => none, []⟩
        (new_buffer 4 0 (some 7) 3 ⟨fun _ => none, []⟩).2
        (from_slice 4 0 (some 7) ([5, 6] : List Nat) ⟨fun _ => none, []⟩).2
        ⟨7, 12, 3, 0⟩ ⟨7, 8, 2, 0⟩).2 rfl⟩

/-- C5: `new_buffer` and `from_slice` fail with `CannotCreate` exactly
when the backend cannot allocate a native object; the failure path issues
only the (failed) create call — no bind, no upload; the success path
issues the create, then the bind to the array-buffer target (issued for
every prior cache state, i.e. `Forced`), then the storage
allocation/upload call. -/
theorem buffer_creation_cannot_create {α : Type} (sizeOfT stateRef len : Nat)
    (data : List α) (st : WebGL2State) :
    (∀ alloc,
      ((new_buffer sizeOfT stateRef alloc len st).1 = .error .CannotCreate ↔
        alloc = none) ∧
      ((from_slice sizeOfT stateRef alloc data st).1 = .error .CannotCreate ↔
        alloc = none)) ∧
    ((new_buffer sizeOfT stateRef none len st).2.native_calls =
        st.native_calls ++ [.createBuffer] ∧
      (from_slice sizeOfT stateRef none data st).2.native_calls =
        st.native_calls ++ [.createBuffer]) ∧
    (∀ hdl,
      (new_buffer sizeOfT stateRef (some hdl) len st).2.native_calls =
        st.native_calls ++ [.createBuffer, .bindBuffer ARRAY_BUFFER (some hdl),
          .bufferDataAlloc (sizeOfT * len)] ∧
      (from_slice sizeOfT stateRef (some hdl) data st).2.native_calls =
        st.native_calls ++ [.createBuffer, .bindBuffer ARRAY_BUFFER (some hdl),
          .bufferDataUpload (sizeOfT * data.length)]) := by
  refine ⟨?_, ?_, ?_⟩
  · intro alloc
    cases alloc <;>
      simp [new_buffer, from_slice, create_buffer]
  · constructor <;> simp [new_buffer, from_slice, create_buffer,
      WebGL2State.issue]
  · intro hdl
    constructor <;> simp [new_buffer, from_slice, create_buffer,
      bind_array_buffer, bind_buffer_target, WebGL2State.issue,
      WebGL2State.setBound]

/-- Witness for C5 at a concrete state, with a failing and a succeeding
allocation. -/
theorem buffer_creation_cannot_create_witness :
    ((new_buffer 4 0 none 3 ⟨fun _ => none, []⟩).1 =
        .error .CannotCreate ↔ (none : Option Nat) = none) ∧
    (new_buffer 4 0 none 3 ⟨fun _ => none, []⟩).2.native_calls =
      [.createBuffer] ∧
    (new_buffer 4 0 (some 7) 3 ⟨fun _ => none, []⟩).2.native_calls =
      [.createBuffer, .bindBuffer ARRAY_BUFFER (some 7),
        .bufferDataAlloc 12] := by
  have h := buffer_creation_cannot_create 4 0 3 ([] : List Nat)
    ⟨fun _ => none, []⟩
  exact ⟨(h.1 none).1, by simpa using h.2.1.1, by simpa using (h.2.2 7).1⟩

/-- C6 (code bug, evaluated at the failing input): for the in-range
index 0 of a 1-element buffer whose mapping fails (`mapResult = none`,
the null pointer), `at` still proceeds: it binds, maps, performs the
unguarded read through the null mapping (the inner `none`), unmaps, and
returns `some _` — no `MapFailed` or any other error reaches the caller,
contradicting the stated failure policy. The adjacent (commented-out)
slice operations do null-check and return `MapFailed`, so the guard is
the intent and its absence in `at` the slip. -/
theorem buffer_at_unguarded_map_failure :
    (Buffer.at ⟨1, 4, 1, 0⟩ (none : Option (Nat → Nat)) 0
        ⟨fun _ => none, []⟩).1 = some none ∧
    (Buffer.at ⟨1, 4, 1, 0⟩ (none : Option (Nat → Nat)) 0
        ⟨fun _ => none, []⟩).2.native_calls =
      [.bindBuffer ARRAY_BUFFER (some 1), .mapBuffer, .unmapBuffer] :=
  ⟨rfl, rfl⟩

/-- C7: `destroy_buffer` unbinds first and only then deletes the native
handle: when the cache records this handle, the native unbind precedes
the native delete in the trace and the cache entry is cleared; when it
does not (already unbound), the unbind is an idempotent-safe no-op and
only the delete is issued, the cache untouched. In both cases the delete
is never issued before the unbind. -/
theorem destroy_buffer_unbind_then_delete (b : Buffer) (st : WebGL2State) :
    (st.bound ARRAY_BUFFER = some b.buf →
      (destroy_buffer b st).native_calls =
        st.native_calls ++ [.bindBuffer ARRAY_BUFFER none,
          .deleteBuffer b.buf] ∧
      (destroy_buffer b st).bound ARRAY_BUFFER = none) ∧
    (st.bound ARRAY_BUFFER ≠ some b.buf →
      (destroy_buffer b st).native_calls =
        st.native_calls ++ [.deleteBuffer b.buf] ∧
      (destroy_buffer b st).bound = st.bound) := by
  constructor
  · intro hb
    simp [destroy_buffer, unbind_buffer, hb, WebGL2State.issue,
      WebGL2State.setBound]
  · intro hb
    simp [destroy_buffer, unbind_buffer, hb, WebGL2State.issue]

/-- Witness for C7: destroying a bound buffer and an unbound one. -/
theorem destroy_buffer_unbind_then_delete_witness :
    (destroy_buffer ⟨5, 4, 1, 0⟩
        ⟨fun u => if u = ARRAY_BUFFER then some 5 else none, []⟩).native_calls =
      [.bindBuffer ARRAY_BUFFER none, .deleteBuffer 5] ∧
    (destroy_buffer ⟨5, 4, 1, 0⟩ ⟨fun _ => none, []⟩).native_calls =
      [.deleteBuffer 5] :=
  ⟨((destroy_buffer_unbind_then_delete ⟨5, 4, 1, 0⟩
      ⟨fun u => if u = ARRAY_BUFFER then some 5 else none, []⟩).1
        (by simp)).1,
   ((destroy_buffer_unbind_then_delete ⟨5, 4, 1, 0⟩
      ⟨fun _ => none, []⟩).2 (by simp)).1⟩

/-- C8: a whole-buffer write fails with `TooFewValues` when the supplied
values occupy fewer bytes than the buffer's byte capacity and with
`TooManyValues` when they occupy more, leaving the state untouched (no
copy, no partial copy) in either case; only when the byte sizes are equal
does it bind, map, copy the bytes, and unmap. -/
theorem write_whole_size_check {α : Type} (sizeOfT : Nat) (b : Buffer)
    (values : List α) (st : WebGL2State) :
    (values.length * sizeOfT < b.bytes →
      write_whole sizeOfT b values st =
        (.error (.TooFewValues values.length b.len), st)) ∧
    (b.bytes < values.length * sizeOfT →
      write_whole sizeOfT b values st =
        (.error (.TooManyValues values.length b.len), st)) ∧
    (values.length * sizeOfT = b.bytes →
      write_whole sizeOfT b values st =
        (.ok (), (((bind_array_buffer st (some b.buf) .Cached).issue
            .mapBuffer).issue (.copyToBuffer b.bytes)).issue
              .unmapBuffer)) := by
  refine ⟨?_, ?_, ?_⟩
  · intro hlt
    simp [write_whole, hlt]
  · intro hgt
    have h1 : ¬ values.length * sizeOfT < b.bytes := by omega
    simp [write_whole, h1, hgt]
  · intro heq
    have h1 : ¬ values.length * sizeOfT < b.bytes := by omega
    have h2 : ¬ b.bytes < values.length * sizeOfT := by omega
    simp [write_whole, h1, h2, heq]

/-- Witness for C8: an 8-byte buffer (`2` elements of size `4`) written
with 1, 3 and 2 values. -/
theorem write_whole_size_check_witness :
    write_whole 4 ⟨2, 8, 2, 0⟩ ([1] : List Nat) ⟨fun _ => none, []⟩ =
      (.error (.TooFewValues 1 2), ⟨fun _ => none, []⟩) ∧
    write_whole 4 ⟨2, 8, 2, 0⟩ ([1, 2, 3] : List Nat) ⟨fun _ => none, []⟩ =
      (.error (.TooManyValues 3 2), ⟨fun _ => none, []⟩) ∧
    write_whole 4 ⟨2, 8, 2, 0⟩ ([1, 2] : List Nat) ⟨fun _ => none, []⟩ =
      (.ok (), (((bind_array_buffer ⟨fun _ => none, []⟩ (some 2)
          .Cached).issue .mapBuffer).issue (.copyToBuffer 8)).issue
            .unmapBuffer) :=
  ⟨(write_whole_size_check 4 ⟨2, 8, 2, 0⟩ ([1] : List Nat)
      ⟨fun _ => none, []⟩).1 (by decide),
   (write_whole_size_check 4 ⟨2, 8, 2, 0⟩ ([1, 2, 3] : List Nat)
      ⟨fun _ => none, []⟩).2.1 (by decide),
   (write_whole_size_check 4 ⟨2, 8, 2, 0⟩ ([1, 2] : List Nat)
      ⟨fun _ => none, []⟩).2.2 (by decide)⟩

lemma destroy_buffer_calls (b : Buffer) (st : WebGL2State) :
    (destroy_buffer b st).native_calls =
      (unbind_buffer st b.buf).native_calls ++ [.deleteBuffer b.buf] :=
  rfl

/-- C9: cloning a `Buffer` yields a value with the same native handle,
byte size, logical length and shared-state reference (the clone is the
whole record), so two live `Buffer` values designate one native object;
destroying either one issues the native delete of the handle the other
still references. -/
theorem buffer_clone_shares (b : Buffer) (st : WebGL2State) :
    Buffer.clone b = b ∧
    NativeCall.deleteBuffer b.buf ∈
      (destroy_buffer (Buffer.clone b) st).native_calls ∧
    NativeCall.deleteBuffer (Buffer.clone b).buf ∈
      (destroy_buffer b st).native_calls := by
  refine ⟨rfl, ?_, ?_⟩ <;> simp [destroy_buffer_calls, Buffer.clone]

/-- C10: creating a zero-length buffer succeeds when the backend can
allocate a native object: `new_buffer(0)` and `from_slice([])` both
produce a buffer with logical length 0 and byte size 0, and `at` on that
buffer returns the absent result at every index. -/
theorem zero_length_buffer_creation {α : Type} (sizeOfT stateRef hdl : Nat)
    (st : WebGL2State) (i : Nat) (m : Option (Nat → α))
    (st2 : WebGL2State) :
    (new_buffer sizeOfT stateRef (some hdl) 0 st).1 =
      .ok ⟨hdl, 0, 0, stateRef⟩ ∧
    (from_slice sizeOfT stateRef (some hdl) ([] : List α) st).1 =
      .ok ⟨hdl, 0, 0, stateRef⟩ ∧
    (Buffer.at (⟨hdl, 0, 0, stateRef⟩ : Buffer) m i st2).1 = none := by
  refine ⟨?_, ?_, ?_⟩
  · simp [new_buffer, create_buffer]
  · simp [from_slice, create_buffer]
  · simp [Buffer.at]

end Luminance
